import Mathlib

/-!
Shallow embedding of the `busters-flowers` repository (three Python scripts
that procedurally build a flower mesh through the Maya `cmds` API:
`bustersflowers.py` — class-based, `flowerforge.py` — function-based,
`genflower.py` — standalone).

Conventions of the embedding:
* Mesh handles are natural numbers drawn from a fresh-id counter `nid`;
  `cmds.duplicate` / `cmds.polyCube` / `cmds.polyCylinder` return the next id.
* Exact decimal constants from the source are rationals (`ℚ`); positions
  produced with `math.cos` / `math.sin` are reals (`ℝ`).
* A raised Python exception is an `Except.error`; `PyErr.valueError` carries
  the message of a raised `ValueError` and `PyErr.zeroDivision` models the
  `ZeroDivisionError` of `360.0 / petal_count` at `petal_count = 0`.
* Calls into `maya.cmds` are recorded as a trace of `MOp` operations, in
  program order.
-/

/-- Displacement triple / scale triple: exact rational (x, y, z). -/
abbrev V3 : Type := ℚ × ℚ × ℚ

/-- Mirror a displacement across the petal's longitudinal axis:
`cmds.move(pos[0], pos[1], -pos[2], ...)` keeps x and y and negates z. -/
def negZ (v : V3) : V3 := (v.1, v.2.1, -v.2.2)

/-- A raised Python exception. -/
inductive PyErr : Type where
  | valueError (msg : String)
  | zeroDivision
deriving DecidableEq

/-- One recorded call into the external `maya.cmds` API. -/
inductive MOp : Type where
  | cylinder (r h : ℚ) (sx sy sz : Nat) (handle : Nat)
  | cube (w h d : ℚ) (sx sy : Nat) (handle : Nat)
  | moveVtx (x y z : ℚ) (obj vtx : Nat)
  | moveObj (x y z : ℝ) (handle : Nat)
  | rotateObj (rx ry rz : ℚ) (handle : Nat)
  | scaleObj (sx sy sz : ℚ) (handle : Nat)
  | duplicateObj (src dst : Nat)
  | deleteObj (handle : Nat)
  | selectClear

/-- Is this operation a `cmds.polyCylinder` call? -/
def MOp.isCylinder : MOp → Bool
  | .cylinder .. => true
  | _ => false

/-- Is this operation a `cmds.scale` call? -/
def MOp.isScaleOp : MOp → Bool
  | .scaleObj .. => true
  | _ => false

/-- Is this operation a `cmds.select(clear=True)` call? -/
def MOp.isSelectClear : MOp → Bool
  | .selectClear => true
  | _ => false

/-- Is this operation a `cmds.duplicate` call? -/
def MOp.isDuplicate : MOp → Bool
  | .duplicateObj .. => true
  | _ => false

/-- `FIBONACCI_LAYER_SETS` (identical tables in `bustersflowers.py` and
`flowerforge.py`): `(base, mid, inner)` petal counts keyed by base count. -/
def FIBONACCI_LAYER_SETS : List (Nat × Nat × Nat) :=
  [(3, 3, 3), (5, 5, 3), (8, 8, 5), (13, 8, 5),
   (21, 13, 8), (34, 21, 13), (55, 34, 21)]

/-- `PETAL_VERTEX_MOVES` (identical tables in `bustersflowers.py` and
`flowerforge.py`): hand-tuned (x, y, z) displacement table. -/
def PETAL_VERTEX_MOVES : List V3 :=
  [(0.1, 0.13, 0.18), (0.2, 0.15, 0.21),
   (0.4, 0.17, 0.23), (0.6, 0.15, 0.24),
   (0.8, 0.16, 0.18), (1, 0.2, 0)]

/-- A flower-type preset: the fields of the `SUNFLOWER` dictionaries. -/
structure FlowerType : Type where
  width : ℚ
  height : ℚ
  depth : ℚ
  subdivX : Nat
  subdivY : Nat
  subdivZ : Nat
  radius : ℚ
  petal_edge : ℚ
deriving DecidableEq

/-- `Flower.SUNFLOWER` of `bustersflowers.py`. -/
def SUNFLOWER_BF : FlowerType :=
  { width := 1, height := 0.05, depth := 0.2,
    subdivX := 8, subdivY := 1, subdivZ := 1,
    radius := 0.8, petal_edge := 0.6 }

/-- `SUNFLOWER` of `flowerforge.py`. -/
def SUNFLOWER_FF : FlowerType :=
  { width := 1, height := 0.1, depth := 0.2,
    subdivX := 8, subdivY := 1, subdivZ := 1,
    radius := 1, petal_edge := 1.4 }

/-- The three layer labels `['base', 'mid', 'inner']`. -/
inductive Layer : Type where
  | base
  | mid
  | inner
deriving DecidableEq

/-- `Flower._find_layer_set` of `bustersflowers.py` and `find_layer_set` of
`flowerforge.py` (identical logic): first table entry whose first component
equals the requested base petal count; `none` models the raised
`ValueError` ("no matching layer set found ...", the spec's
`ConfigurationError`). -/
def find_layer_set (base_petals : Nat) : Option (Nat × Nat × Nat) :=
  FIBONACCI_LAYER_SETS.find? (fun layer_set => layer_set.1 == base_petals)

/-- Default displacement used by `List.getD` (indices are in range at every
call site, matching the source's in-range table indexing). -/
def noV3 : V3 := (0, 0, 0)

/-- `PETAL_VERTEX_MOVES[i % len(PETAL_VERTEX_MOVES)]` — the cyclic table
lookup of `Flower._move_vertices`. -/
def tblAt (i : Nat) : V3 :=
  PETAL_VERTEX_MOVES.getD (i % PETAL_VERTEX_MOVES.length) noV3

/-- `Flower._get_vertex_ranges` of `bustersflowers.py`:
`range(0, vertex_count // 2)` and `range(vertex_count // 2, vertex_count)`
(Python `range(a, b)` is `[a, b)`, i.e. `List.range' a (b - a)`). -/
def bf_get_vertex_ranges (vertex_count : Nat) : List Nat × List Nat :=
  (List.range' 0 (vertex_count / 2),
   List.range' (vertex_count / 2) (vertex_count - vertex_count / 2))

/-- One side of `Flower._move_vertices`: enumerating a contiguous vertex
range starting at `first` with `len` vertices, the enumeration index of
vertex `first + i` is `i`, and the displacement applied is
`PETAL_VERTEX_MOVES[i % len(PETAL_VERTEX_MOVES)]` (z negated on the
mirrored right side). Produces the `(vertex, displacement)` pairs in the
order the `cmds.move` calls are issued. -/
def bf_side_moves (first len : Nat) (mirror : Bool) : List (Nat × V3) :=
  (List.range len).map (fun i =>
    (first + i, if mirror then negZ (tblAt i) else tblAt i))

/-- `Flower._move_vertices` of `bustersflowers.py`: the left half
`[0, n/2)` with the table displacements, then the right half `[n/2, n)`
with the z-mirrored displacements. -/
def bf_move_vertices (num_vertices : Nat) : List (Nat × V3) :=
  bf_side_moves 0 ((bf_get_vertex_ranges num_vertices).1.length) false
    ++ bf_side_moves (num_vertices / 2)
        ((bf_get_vertex_ranges num_vertices).2.length) true

/-- Which side `move_vertices` of `flowerforge.py` sculpts. -/
inductive Side : Type where
  | L
  | R
deriving DecidableEq

/-- `move_vertices` of `flowerforge.py`: iterates the vertex indices
`first_vertex .. last_vertex` inclusive and displaces vertex `v` by
`PETAL_VERTEX_MOVES[v - first_vertex]` (no modulus), z negated on side
`'R'`. Writing `v = first_vertex + k`, the table index is `k`. -/
def ff_move_vertices (side : Side) (first_vertex last_vertex : Nat) :
    List (Nat × V3) :=
  (List.range (last_vertex + 1 - first_vertex)).map (fun k =>
    (first_vertex + k,
      match side with
      | .L => PETAL_VERTEX_MOVES.getD k noV3
      | .R => negZ (PETAL_VERTEX_MOVES.getD k noV3)))

/-- The vertex moves issued by `create_petal` of `flowerforge.py`:
`move_vertices(petal, 'L', 12, 17)` then `move_vertices(petal, 'R', 21, 26)`. -/
def ff_create_petal_moves : List (Nat × V3) :=
  ff_move_vertices .L 12 17 ++ ff_move_vertices .R 21 26

/-- The twelve literal `cmds.move(..., petal.vtx[i])` calls of
`genflower.py` `create_flower`, in source order. -/
def gf_vertex_moves : List (Nat × V3) :=
  [(17, (1, 0.2, 0)), (26, (1, 0.2, 0)),
   (16, (0.8, 0.16, 0.18)), (25, (0.8, 0.16, -0.18)),
   (15, (0.6, 0.15, 0.24)), (24, (0.6, 0.15, -0.24)),
   (14, (0.4, 0.17, 0.23)), (23, (0.4, 0.17, -0.23)),
   (13, (0.2, 0.15, 0.21)), (22, (0.2, 0.15, -0.21)),
   (12, (0.1, 0.13, 0.18)), (21, (0.1, 0.13, -0.18))]

/-- Displacement `genflower.py` applies to vertex `v`, if any. -/
def gf_disp (v : Nat) : Option V3 :=
  (gf_vertex_moves.find? (fun m => m.1 == v)).map (fun m => m.2)

/-- The left/right vertex pairs of `genflower.py`'s sculpting, outermost
first, as written in the source. -/
def gf_mirror_pairs : List (Nat × Nat) :=
  [(17, 26), (16, 25), (15, 24), (14, 23), (13, 22), (12, 21)]

/-- A created flower disk: the `cmds.polyCylinder` parameters plus the
final world position of the handle (origin unless moved). -/
structure Disk : Type where
  handle : Nat
  radius : ℚ
  height : ℚ
  sx : Nat
  sy : Nat
  sz : Nat
  posX : ℚ
  posY : ℚ
  posZ : ℚ
deriving DecidableEq

/-- `Flower._create_disk` of `bustersflowers.py`: one
`cmds.polyCylinder(r=radius, h=height, sx=petal_count, sy=1, sz=1)` followed
by `cmds.move(0, height + 0.08, 0, disk)`. Returns the disk, the op trace
and the next fresh id. -/
def bf_create_disk (ft : FlowerType) (petal_count : Nat) (nid : Nat) :
    Disk × List MOp × Nat :=
  ({ handle := nid, radius := ft.radius, height := ft.height,
     sx := petal_count, sy := 1, sz := 1,
     posX := 0, posY := ft.height + 0.08, posZ := 0 },
   [MOp.cylinder ft.radius ft.height petal_count 1 1 nid,
    MOp.moveObj 0 ((ft.height : ℝ) + 0.08) 0 nid],
   nid + 1)

/-- `create_disk` of `flowerforge.py`: the same `cmds.polyCylinder` call but
no subsequent move — the disk stays at the origin. -/
def ff_create_disk (ft : FlowerType) (petal_count : Nat) (nid : Nat) :
    Disk × List MOp × Nat :=
  ({ handle := nid, radius := ft.radius, height := ft.height,
     sx := petal_count, sy := 1, sz := 1,
     posX := 0, posY := 0, posZ := 0 },
   [MOp.cylinder ft.radius ft.height petal_count 1 1 nid],
   nid + 1)

/-- `math.radians(angle)`: degrees to radians. -/
noncomputable def radians (deg : ℝ) : ℝ := deg * (Real.pi / 180)

/-- `Flower._create_petal` of `bustersflowers.py`: one
`cmds.polyCube(w, h, d, sx, sy)` (the new handle), then
`num_vertices = cmds.polyEvaluate(petal, vertex=True)` — an external query,
supplied here as the parameter `num_vertices` — then the
`_move_vertices` displacement calls. `layer_type` is accepted but unused,
as in the source. Returns (petal handle, op trace, next fresh id). -/
def bf_create_petal (ft : FlowerType) (layer_type : Layer)
    (num_vertices : Nat) (nid : Nat) : Nat × List MOp × Nat :=
  (nid,
   MOp.cube ft.width ft.height ft.depth ft.subdivX ft.subdivY nid
     :: (bf_move_vertices num_vertices).map
          (fun m => MOp.moveVtx m.2.1 m.2.2.1 m.2.2.2 nid m.1),
   nid + 1)

/-- `create_petal` of `flowerforge.py`: one `cmds.polyCube`, then the two
fixed-range `move_vertices` calls (no vertex-count query). `layer_type` is
accepted but unused, as in the source. -/
def ff_create_petal (ft : FlowerType) (layer_type : Layer) (nid : Nat) :
    Nat × List MOp × Nat :=
  (nid,
   MOp.cube ft.width ft.height ft.depth ft.subdivX ft.subdivY nid
     :: ff_create_petal_moves.map
          (fun m => MOp.moveVtx m.2.1 m.2.2.1 m.2.2.2 nid m.1),
   nid + 1)

/-- One arranged petal duplicate: its handle, rotation angle (degrees, an
exact rational `i * (360 / petal_count)`), the world position the
`cmds.move(x, y, z, instance)` call placed it at, and the scale attribute
the duplicate copied from the template at duplication time. -/
structure PetalInst : Type where
  handle : Nat
  angle : ℚ
  px : ℝ
  py : ℝ
  pz : ℝ
  scale : V3

/-- Default `PetalInst` for `List.getD`. -/
def noInst : PetalInst :=
  { handle := 0, angle := 0, px := 0, py := 0, pz := 0, scale := noV3 }

/-- Loop body of `Flower._arrange_petals` (`bustersflowers.py`), iteration
`i`: `angle = i * rotation_increment`, duplicate (fresh handle `nid + i`),
position `x = petal_edge * cos(radians(angle))`,
`z = petal_edge * sin(radians(angle))`, `y = 0`. No scale call is made
(the `_transform_petal` call is commented out), so the duplicate keeps the
template's scale. -/
noncomputable def bf_inst (ft : FlowerType) (tplScale : V3)
    (rotation_increment : ℚ) (nid i : Nat) : PetalInst :=
  { handle := nid + i,
    angle := i * rotation_increment,
    px := (ft.petal_edge : ℝ) * Real.cos (radians ((i * rotation_increment : ℚ) : ℝ)),
    py := 0,
    pz := (ft.petal_edge : ℝ) * Real.sin (radians ((i * rotation_increment : ℚ) : ℝ)),
    scale := tplScale }

/-- The `cmds` calls of one `Flower._arrange_petals` iteration:
duplicate, `cmds.rotate(0, -angle, 0, instance)` (lay flat), then
`cmds.move(x, y, z, instance)`. -/
def bf_inst_ops (tpl : Nat) (p : PetalInst) : List MOp :=
  [MOp.duplicateObj tpl p.handle,
   MOp.rotateObj 0 (-p.angle) 0 p.handle,
   MOp.moveObj p.px p.py p.pz p.handle]

/-- `Flower._arrange_petals` of `bustersflowers.py`:
`rotation_increment = 360.0 / petal_count` (a `ZeroDivisionError` at 0;
`range(petal_count)` is empty for negative counts), the placement loop,
then `cmds.delete(petal)` and `cmds.select(clear=True)`. Returns the
instance list, the op trace and the next fresh id. -/
noncomputable def bf_arrange_petals (ft : FlowerType) (tpl : Nat) (tplScale : V3)
    (petal_count : Int) (nid : Nat) :
    Except PyErr (List PetalInst × List MOp × Nat) :=
  if petal_count = 0 then .error .zeroDivision
  else
    let rotation_increment : ℚ := 360 / (petal_count : ℚ)
    let flower_petals :=
      (List.range petal_count.toNat).map (bf_inst ft tplScale rotation_increment nid)
    .ok (flower_petals,
         (flower_petals.map (bf_inst_ops tpl)).flatten
           ++ [MOp.deleteObj tpl, MOp.selectClear],
         nid + petal_count.toNat)

/-- `cmds.scale(0.7, 0.5, 0.8, petal)` of `transform_petal`
(`flowerforge.py` / `bustersflowers.py`): `cmds.scale` without
`relative=True` sets the scale attribute absolutely. -/
def transform_petal_scale : V3 := (0.7, 0.5, 0.8)

/-- Scale attribute of the `flowerforge.py` template at the start of loop
iteration `i` of `arrange_petals`: iterations for the `'inner'` and
`'mid'` layers call `transform_petal(petal)` on the template after
duplicating, the `'base'` layer does not. -/
def ff_tpl_scale (layer : Layer) (s0 : V3) : Nat → V3
  | 0 => s0
  | i + 1 =>
      match layer with
      | .base => ff_tpl_scale layer s0 i
      | .mid => transform_petal_scale
      | .inner => transform_petal_scale

/-- Loop body of `arrange_petals` (`flowerforge.py`), iteration `i`: same
angle and position arithmetic as the class version; the duplicate is
created first, so it copies the template scale reached after `i` prior
iterations. -/
noncomputable def ff_inst (ft : FlowerType) (layer : Layer) (s0 : V3)
    (rotation_increment : ℚ) (nid i : Nat) : PetalInst :=
  { handle := nid + i,
    angle := i * rotation_increment,
    px := (ft.petal_edge : ℝ) * Real.cos (radians ((i * rotation_increment : ℚ) : ℝ)),
    py := 0,
    pz := (ft.petal_edge : ℝ) * Real.sin (radians ((i * rotation_increment : ℚ) : ℝ)),
    scale := ff_tpl_scale layer s0 i }

/-- The `cmds` calls of one `arrange_petals` iteration (`flowerforge.py`):
duplicate, `cmds.rotate(90, 0, 0, instance)`, for `'inner'`/`'mid'` the
`transform_petal` scale on the template, `cmds.move(x, y, z, instance)`,
`cmds.rotate(0, -angle, 0, instance)`. -/
def ff_inst_ops (layer : Layer) (tpl : Nat) (p : PetalInst) : List MOp :=
  [MOp.duplicateObj tpl p.handle, MOp.rotateObj 90 0 0 p.handle]
    ++ (match layer with
        | .base => []
        | .mid => [MOp.scaleObj 0.7 0.5 0.8 tpl]
        | .inner => [MOp.scaleObj 0.7 0.5 0.8 tpl])
    ++ [MOp.moveObj p.px p.py p.pz p.handle,
        MOp.rotateObj 0 (-p.angle) 0 p.handle]

/-- `arrange_petals` of `flowerforge.py`: as the class version, plus the
layer-conditional `transform_petal` calls on the template, then
`cmds.delete(petal)` and `cmds.select(clear=True)`. -/
noncomputable def ff_arrange_petals (ft : FlowerType) (layer : Layer) (tpl : Nat)
    (s0 : V3) (petal_count : Int) (nid : Nat) :
    Except PyErr (List PetalInst × List MOp × Nat) :=
  if petal_count = 0 then .error .zeroDivision
  else
    let rotation_increment : ℚ := 360 / (petal_count : ℚ)
    let flower_petals :=
      (List.range petal_count.toNat).map (ff_inst ft layer s0 rotation_increment nid)
    .ok (flower_petals,
         (flower_petals.map (ff_inst_ops layer tpl)).flatten
           ++ [MOp.deleteObj tpl, MOp.selectClear],
         nid + petal_count.toNat)

/-- Loop body of `genflower.py` `create_flower`, iteration `i`:
`angle = i * (360 / petal_count)`, duplicate, position at radius `1.3`.
Nothing ever scales the template, so every duplicate keeps scale (1,1,1). -/
noncomputable def gf_inst (rotation_increment : ℚ) (nid i : Nat) : PetalInst :=
  { handle := nid + i,
    angle := i * rotation_increment,
    px := (1.3 : ℝ) * Real.cos (radians ((i * rotation_increment : ℚ) : ℝ)),
    py := 0,
    pz := (1.3 : ℝ) * Real.sin (radians ((i * rotation_increment : ℚ) : ℝ)),
    scale := (1, 1, 1) }

/-- The `cmds` calls of one `genflower.py` loop iteration: duplicate,
`cmds.rotate(90, 0, 0)`, `cmds.move(x, 0, z)`, `cmds.rotate(0, -angle, 0)`. -/
def gf_inst_ops (tpl : Nat) (p : PetalInst) : List MOp :=
  [MOp.duplicateObj tpl p.handle,
   MOp.rotateObj 90 0 0 p.handle,
   MOp.moveObj p.px p.py p.pz p.handle,
   MOp.rotateObj 0 (-p.angle) 0 p.handle]

/-- `create_flower` of `genflower.py`: validates `petal_count <= 0`
(raising `ValueError`) before any geometry is created; then one cylinder
(the disk, handle `nid`), one cube (the petal template, handle `nid + 1`),
the twelve literal vertex moves, `cmds.select(clear=True)`, the
duplication loop (handles `nid + 2 + i`), and finally `cmds.delete(petal)`
— with no further `cmds.select` call before returning. -/
noncomputable def gf_create_flower (petal_count : Int) (nid : Nat) :
    Except PyErr (Nat × List PetalInst × List MOp) :=
  if petal_count ≤ 0 then
    .error (.valueError "petal_count must be greater than zero")
  else
    let flower_disk := nid
    let petal := nid + 1
    let rotation_increment : ℚ := 360 / (petal_count : ℚ)
    let flower_petals :=
      (List.range petal_count.toNat).map (gf_inst rotation_increment (nid + 2))
    .ok (flower_disk, flower_petals,
         [MOp.cylinder 1 0.1 petal_count.toNat 1 1 flower_disk,
          MOp.cube 0.8 0.1 0.2 8 1 petal]
           ++ gf_vertex_moves.map (fun m => MOp.moveVtx m.2.1 m.2.2.1 m.2.2.2 petal m.1)
           ++ [MOp.selectClear]
           ++ (flower_petals.map (gf_inst_ops petal)).flatten
           ++ [MOp.deleteObj petal])

/-- The state of a `Flower` object of `bustersflowers.py`: `__init__` sets
`flower_type`, `base_petal_count` and `all_petals = []`. -/
structure BfFlower : Type where
  flower_type : FlowerType
  base_petal_count : Nat
  all_petals : List Nat

/-- One iteration of the `for layer_type, petal_count in zip(...)` loop of
`Flower.create_flower`: build a fresh petal template, arrange it, extend
`self.all_petals` with the arranged handles. The accumulator carries
(`self.all_petals` so far, next fresh id). -/
noncomputable def bf_layer_step (ft : FlowerType) (num_vertices : Nat)
    (acc : List Nat × Nat) (lp : Layer × Nat) :
    Except PyErr (List Nat × Nat) :=
  let cp := bf_create_petal ft lp.1 num_vertices acc.2
  match bf_arrange_petals ft cp.1 (1, 1, 1) (lp.2 : Int) cp.2.2 with
  | .error e => .error e
  | .ok (arranged_layer, _ops, nid2) =>
      .ok (acc.1 ++ arranged_layer.map (fun p => p.handle), nid2)

/-- `Flower.create_flower` of `bustersflowers.py`: resolve the layer set
(raising on no match), create the disk once, then run the three-layer loop
extending `self.all_petals`. Returns ((disk handle, `self.all_petals`),
the updated `Flower` object, next fresh id). `num_vertices` stands for the
external `cmds.polyEvaluate` vertex-count answer. -/
noncomputable def bf_create_flower (fl : BfFlower) (num_vertices : Nat) (nid : Nat) :
    Except PyErr ((Nat × List Nat) × BfFlower × Nat) :=
  match find_layer_set fl.base_petal_count with
  | none =>
      .error (.valueError
        ("No matching layer set found for petal count: "
          ++ toString fl.base_petal_count))
  | some ls =>
      let cd := bf_create_disk fl.flower_type fl.base_petal_count nid
      match ([(Layer.base, ls.1), (Layer.mid, ls.2.1), (Layer.inner, ls.2.2)]).foldlM
              (bf_layer_step fl.flower_type num_vertices)
              (fl.all_petals, cd.2.2) with
      | .error e => .error e
      | .ok (petals, nid2) =>
          .ok ((cd.1.handle, petals),
               { fl with all_petals := petals }, nid2)

/-- One iteration of the layer loop of `create_flower` (`flowerforge.py`):
build a fresh petal template, arrange it, and `all_petals.append(...)` the
arranged layer as one element — the layers are not flattened. -/
noncomputable def ff_layer_step (ft : FlowerType)
    (acc : List (List Nat) × Nat) (lp : Layer × Nat) :
    Except PyErr (List (List Nat) × Nat) :=
  let cp := ff_create_petal ft lp.1 acc.2
  match ff_arrange_petals ft lp.1 cp.1 (1, 1, 1) (lp.2 : Int) cp.2.2 with
  | .error e => .error e
  | .ok (arranged_layer, _ops, nid2) =>
      .ok (acc.1 ++ [arranged_layer.map (fun p => p.handle)], nid2)

/-- `create_flower` of `flowerforge.py`: resolve, create the (unmoved)
disk, run the three-layer loop appending each arranged layer as a whole
list. Returns ((disk handle, `all_petals` — a list of three layer lists),
next fresh id). -/
noncomputable def ff_create_flower (ft : FlowerType) (base_petal_count : Nat)
    (nid : Nat) : Except PyErr ((Nat × List (List Nat)) × Nat) :=
  match find_layer_set base_petal_count with
  | none =>
      .error (.valueError
        ("no matching layer set found for petal count: "
          ++ toString base_petal_count))
  | some ls =>
      let cd := ff_create_disk ft base_petal_count nid
      match ([(Layer.base, ls.1), (Layer.mid, ls.2.1), (Layer.inner, ls.2.2)]).foldlM
              (ff_layer_step ft) ([], cd.2.2) with
      | .error e => .error e
      | .ok (petals, nid2) => .ok ((cd.1.handle, petals), nid2)

/-- Did the call return normally (no exception)? -/
def isOkB {α : Type} : Except PyErr α → Bool
  | .ok _ => true
  | .error _ => false

/-- Arranged instances of an arranger result (empty on error). -/
def petalsOf (r : Except PyErr (List PetalInst × List MOp × Nat)) :
    List PetalInst :=
  match r with
  | .ok v => v.1
  | .error _ => []

/-- Op trace of an arranger result (empty on error). -/
def opsOf (r : Except PyErr (List PetalInst × List MOp × Nat)) :
    List MOp :=
  match r with
  | .ok v => v.2.1
  | .error _ => []

/-- `all_petals` returned by `Flower.create_flower` (empty on error). -/
def cfPetals (r : Except PyErr ((Nat × List Nat) × BfFlower × Nat)) :
    List Nat :=
  match r with
  | .ok v => v.1.2
  | .error _ => []

/-- The `Flower` object after `Flower.create_flower` (a junk object on
error; every use is under a success hypothesis). -/
def cfFlower (r : Except PyErr ((Nat × List Nat) × BfFlower × Nat)) :
    BfFlower :=
  match r with
  | .ok v => v.2.1
  | .error _ => { flower_type := SUNFLOWER_BF, base_petal_count := 0, all_petals := [] }

/-- `all_petals` returned by `create_flower` of `flowerforge.py`
(empty on error). -/
def ffcfPetals (r : Except PyErr ((Nat × List (List Nat)) × Nat)) :
    List (List Nat) :=
  match r with
  | .ok v => v.1.2
  | .error _ => []

/-- Petal instances of a `genflower.py` result (empty on error). -/
def gfPetals (r : Except PyErr (Nat × List PetalInst × List MOp)) :
    List PetalInst :=
  match r with
  | .ok v => v.2.1
  | .error _ => []

/-- Op trace of a `genflower.py` result (empty on error). -/
def gfOps (r : Except PyErr (Nat × List PetalInst × List MOp)) :
    List MOp :=
  match r with
  | .ok v => v.2.2
  | .error _ => []

/-- The arranged instance list of `Flower._arrange_petals` (empty when the
call raised). -/
noncomputable def bf_arranged (ft : FlowerType) (tpl : Nat) (s : V3)
    (petal_count : Int) (nid : Nat) : List PetalInst :=
  petalsOf (bf_arrange_petals ft tpl s petal_count nid)

/-- The arranged instance list of `arrange_petals` of `flowerforge.py`
(empty when the call raised). -/
noncomputable def ff_arranged (ft : FlowerType) (layer : Layer) (tpl : Nat) (s : V3)
    (petal_count : Int) (nid : Nat) : List PetalInst :=
  petalsOf (ff_arrange_petals ft layer tpl s petal_count nid)

/-- Indexing a mapped range: the element at position `i` is `f i`. -/
theorem getD_range_map {α : Type} (f : Nat → α) (n i : Nat) (h : i < n) (d : α) :
    ((List.range n).map f).getD i d = f i := by
  rw [List.getD_eq_getElem?_getD, List.getElem?_map, List.getElem?_range h]
  rfl

/-- Every entry of the layer-set table has three nonzero counts. -/
theorem layer_sets_pos :
    ∀ ls ∈ FIBONACCI_LAYER_SETS, ls.1 ≠ 0 ∧ ls.2.1 ≠ 0 ∧ ls.2.2 ≠ 0 := by decide

/-- For a nonzero petal count the class-based arranger returns normally,
with one instance per index of `range petal_count`. -/
theorem bf_arrange_petals_ok (ft : FlowerType) (tpl : Nat) (s : V3)
    (pc : Nat) (nid : Nat) (h : pc ≠ 0) :
    bf_arrange_petals ft tpl s (pc : Int) nid
      = .ok ((List.range pc).map (bf_inst ft s (360 / (pc : ℚ)) nid),
             (((List.range pc).map (bf_inst ft s (360 / (pc : ℚ)) nid)).map
                 (bf_inst_ops tpl)).flatten
               ++ [MOp.deleteObj tpl, MOp.selectClear],
             nid + pc) := by
  unfold bf_arrange_petals
  rw [if_neg (by exact_mod_cast h)]
  norm_num

/-- One `Flower.create_flower` layer iteration, on a nonzero count:
extends the accumulated handle list with the new duplicates' handles. -/
theorem bf_layer_step_ok (ft : FlowerType) (nv : Nat) (acc : List Nat × Nat)
    (lt : Layer) (pc : Nat) (h : pc ≠ 0) :
    bf_layer_step ft nv acc (lt, pc)
      = .ok (acc.1 ++ (List.range pc).map (fun i => acc.2 + 1 + i), acc.2 + 1 + pc) := by
  simp only [bf_layer_step, bf_create_petal]
  rw [bf_arrange_petals_ok ft acc.2 (1, 1, 1) pc (acc.2 + 1) h]
  simp [List.map_map, bf_inst]

/-- Shape of a successful `Flower.create_flower` run: the returned petal
list is the object's previous `all_petals` extended by one block of fresh
handles per layer, and the returned `Flower` stores exactly that list. -/
theorem bf_create_flower_shape (ft : FlowerType) (b nv nid : Nat) (ap : List Nat)
    (ls : Nat × Nat × Nat) (hfind : find_layer_set b = some ls)
    (h1 : ls.1 ≠ 0) (h2 : ls.2.1 ≠ 0) (h3 : ls.2.2 ≠ 0) :
    ∃ (X : List Nat) (nidEnd : Nat), X.length = ls.1 + ls.2.1 + ls.2.2
      ∧ bf_create_flower ⟨ft, b, ap⟩ nv nid
          = .ok ((nid, ap ++ X), ⟨ft, b, ap ++ X⟩, nidEnd) := by
  simp only [bf_create_flower, hfind, bf_create_disk, List.foldlM_cons, List.foldlM_nil]
  rw [bf_layer_step_ok ft nv (ap, nid + 1) Layer.base ls.1 h1]
  simp only [bind, Except.bind]
  rw [bf_layer_step_ok ft nv _ Layer.mid ls.2.1 h2]
  simp only [bind, Except.bind]
  rw [bf_layer_step_ok ft nv _ Layer.inner ls.2.2 h3]
  simp only [bind, Except.bind, pure, Except.pure]
  refine ⟨List.map (fun i => nid + 1 + 1 + i) (List.range ls.1)
      ++ (List.map (fun i => nid + 1 + 1 + ls.1 + 1 + i) (List.range ls.2.1)
        ++ List.map (fun i => nid + 1 + 1 + ls.1 + 1 + ls.2.1 + 1 + i) (List.range ls.2.2)),
    nid + 1 + 1 + ls.1 + 1 + ls.2.1 + 1 + ls.2.2, ?_, ?_⟩
  · simp only [List.length_append, List.length_map, List.length_range]
    omega
  · simp [List.append_assoc]

/-- For a nonzero petal count the `flowerforge.py` arranger returns
normally, with one instance per index of `range petal_count`. -/
theorem ff_arrange_petals_ok (ft : FlowerType) (layer : Layer) (tpl : Nat) (s : V3)
    (pc : Nat) (nid : Nat) (h : pc ≠ 0) :
    ff_arrange_petals ft layer tpl s (pc : Int) nid
      = .ok ((List.range pc).map (ff_inst ft layer s (360 / (pc : ℚ)) nid),
             (((List.range pc).map (ff_inst ft layer s (360 / (pc : ℚ)) nid)).map
                 (ff_inst_ops layer tpl)).flatten
               ++ [MOp.deleteObj tpl, MOp.selectClear],
             nid + pc) := by
  unfold ff_arrange_petals
  rw [if_neg (by exact_mod_cast h)]
  norm_num

/-- One `flowerforge.py` `create_flower` layer iteration, on a nonzero
count: appends the new layer's handle list as a single element. -/
theorem ff_layer_step_ok (ft : FlowerType) (acc : List (List Nat) × Nat)
    (lt : Layer) (pc : Nat) (h : pc ≠ 0) :
    ff_layer_step ft acc (lt, pc)
      = .ok (acc.1 ++ [(List.range pc).map (fun i => acc.2 + 1 + i)], acc.2 + 1 + pc) := by
  simp only [ff_layer_step, ff_create_petal]
  rw [ff_arrange_petals_ok ft lt acc.2 (1, 1, 1) pc (acc.2 + 1) h]
  simp [List.map_map, ff_inst]

/-- Shape of a successful `flowerforge.py` `create_flower` run: the
returned `all_petals` is a list of exactly three per-layer handle lists. -/
theorem ff_create_flower_shape (ft : FlowerType) (b nid : Nat)
    (ls : Nat × Nat × Nat) (hfind : find_layer_set b = some ls)
    (h1 : ls.1 ≠ 0) (h2 : ls.2.1 ≠ 0) (h3 : ls.2.2 ≠ 0) :
    ff_create_flower ft b nid
      = .ok ((nid,
              [(List.range ls.1).map (fun i => nid + 1 + 1 + i),
               (List.range ls.2.1).map (fun i => nid + 1 + 1 + ls.1 + 1 + i),
               (List.range ls.2.2).map (fun i => nid + 1 + 1 + ls.1 + 1 + ls.2.1 + 1 + i)]),
             nid + 1 + 1 + ls.1 + 1 + ls.2.1 + 1 + ls.2.2) := by
  simp only [ff_create_flower, hfind, ff_create_disk, List.foldlM_cons, List.foldlM_nil]
  rw [ff_layer_step_ok ft ([], nid + 1) Layer.base ls.1 h1]
  simp only [bind, Except.bind]
  rw [ff_layer_step_ok ft _ Layer.mid ls.2.1 h2]
  simp only [bind, Except.bind]
  rw [ff_layer_step_ok ft _ Layer.inner ls.2.2 h3]
  simp only [bind, Except.bind, pure, Except.pure]
  simp

/-- Vertex indices touched by one side of the class-based sculptor: the
contiguous range starting at `first`. -/
theorem bf_side_moves_fst (first len : Nat) (mirror : Bool) :
    (bf_side_moves first len mirror).map Prod.fst = List.range' first len := by
  simp [bf_side_moves, List.map_map, List.range'_eq_map_range]

/-- Entry `i` of the class-based sculptor's move list, left half: vertex
`i` displaced by the cyclic table entry `i % 6`. -/
theorem bf_move_vertices_getD_left (nv i : Nat) (hi : i < nv / 2) :
    (bf_move_vertices nv).getD i (0, noV3) = (i, tblAt i) := by
  have hmv : bf_move_vertices nv
      = bf_side_moves 0 (nv / 2) false
          ++ bf_side_moves (nv / 2) (nv - nv / 2) true := by
    rw [bf_move_vertices]
    simp [bf_get_vertex_ranges]
  rw [hmv, List.getD_append _ _ _ i (by rw [bf_side_moves]; simp [hi])]
  rw [bf_side_moves, getD_range_map _ _ _ hi]
  simp

/-- Entry `nv / 2 + i` of the class-based sculptor's move list, right
half: vertex `nv / 2 + i` displaced by the z-mirrored cyclic table entry. -/
theorem bf_move_vertices_getD_right (nv i : Nat) (hi : i < nv - nv / 2) :
    (bf_move_vertices nv).getD (nv / 2 + i) (0, noV3)
      = (nv / 2 + i, negZ (tblAt i)) := by
  have hmv : bf_move_vertices nv
      = bf_side_moves 0 (nv / 2) false
          ++ bf_side_moves (nv / 2) (nv - nv / 2) true := by
    rw [bf_move_vertices]
    simp [bf_get_vertex_ranges]
  have hlen : (bf_side_moves 0 (nv / 2) false).length = nv / 2 := by
    simp [bf_side_moves]
  rw [hmv, List.getD_append_right _ _ _ _ (by rw [hlen]; omega), hlen,
    Nat.add_sub_cancel_left, bf_side_moves, getD_range_map _ _ _ hi]
  simp

/-- The `flowerforge.py` template keeps its scale across base-layer
iterations. -/
theorem ff_tpl_scale_base (s : V3) : ∀ i, ff_tpl_scale Layer.base s i = s
  | 0 => rfl
  | i + 1 => by
      rw [ff_tpl_scale]
      exact ff_tpl_scale_base s i

/-- After at least one mid- or inner-layer iteration the `flowerforge.py`
template carries the `transform_petal` scale. -/
theorem ff_tpl_scale_rescaled (layer : Layer) (s : V3) (hL : layer ≠ Layer.base)
    (i : Nat) (hi : 0 < i) : ff_tpl_scale layer s i = transform_petal_scale := by
  cases i with
  | zero => omega
  | succ j =>
      cases layer with
      | base => exact absurd rfl hL
      | mid => rfl
      | inner => rfl

/-- Claim C1 (amended) — the class-based `Flower.create_flower`, on a
fresh `Flower`, returns a single flattened list of petal handles whose
length is base + mid + inner of the resolved layer set; the
`flowerforge.py` `create_flower` instead returns a list of three
per-layer handle lists (not flattened), one per layer count, whose
concatenation has the base + mid + inner length. -/
theorem C1_create_flower_totals :
    (∀ (ft : FlowerType) (b nv nid : Nat) (ls : Nat × Nat × Nat),
        find_layer_set b = some ls →
        (cfPetals (bf_create_flower ⟨ft, b, []⟩ nv nid)).length
          = ls.1 + ls.2.1 + ls.2.2)
    ∧ (∀ (ft : FlowerType) (b nid : Nat) (ls : Nat × Nat × Nat),
        find_layer_set b = some ls →
        (ffcfPetals (ff_create_flower ft b nid)).map List.length = [ls.1, ls.2.1, ls.2.2]
        ∧ (ffcfPetals (ff_create_flower ft b nid)).flatten.length
            = ls.1 + ls.2.1 + ls.2.2) := by
  constructor
  · intro ft b nv nid ls hfind
    obtain ⟨p1, p2, p3⟩ := layer_sets_pos ls (List.mem_of_find?_eq_some hfind)
    obtain ⟨X, nidEnd, hlen, heq⟩ := bf_create_flower_shape ft b nv nid [] ls hfind p1 p2 p3
    rw [heq]
    simp [cfPetals, hlen]
  · intro ft b nid ls hfind
    obtain ⟨p1, p2, p3⟩ := layer_sets_pos ls (List.mem_of_find?_eq_some hfind)
    rw [ff_create_flower_shape ft b nid ls hfind p1 p2 p3]
    constructor
    · simp [ffcfPetals]
    · simp only [ffcfPetals, List.flatten, List.length_append, List.length_map,
        List.length_range, List.append_nil]
      omega

/-- Claim C1, counterexample to the claim as stated: with base petal
count 21 (resolved to (21, 13, 8)), the list `flowerforge.py`
`create_flower` returns has length 3 — the three layer lists — not 42;
it is not a flattened list of 42 petal handles. -/
theorem C1_counterexample :
    find_layer_set 21 = some (21, 13, 8)
    ∧ (ffcfPetals (ff_create_flower SUNFLOWER_FF 21 0)).length = 3
    ∧ (ffcfPetals (ff_create_flower SUNFLOWER_FF 21 0)).length ≠ 42
    ∧ (ffcfPetals (ff_create_flower SUNFLOWER_FF 21 0)).map List.length
        = [21, 13, 8] := by decide

/-- Claim C1, witness: the class-based orchestrator yields 42 petal
handles at base count 21 and 13 at base count 5; `flowerforge.py` yields
13 in total (across its three layer lists) at base count 5. -/
theorem C1_create_flower_totals_witness :
    (cfPetals (bf_create_flower ⟨SUNFLOWER_BF, 21, []⟩ 36 0)).length = 42
    ∧ (cfPetals (bf_create_flower ⟨SUNFLOWER_BF, 5, []⟩ 36 0)).length = 13
    ∧ find_layer_set 5 = some (5, 5, 3)
    ∧ (ffcfPetals (ff_create_flower SUNFLOWER_FF 5 0)).flatten.length = 13 := by
  refine ⟨?_, ?_, by decide, ?_⟩
  · have h := C1_create_flower_totals.1 SUNFLOWER_BF 21 36 0 (21, 13, 8) (by decide)
    simpa using h
  · have h := C1_create_flower_totals.1 SUNFLOWER_BF 5 36 0 (5, 5, 3) (by decide)
    simpa using h
  · have h := (C1_create_flower_totals.2 SUNFLOWER_FF 5 0 (5, 5, 3) (by decide)).2
    simpa using h

/-- Claim C2 — the layer resolver fails exactly when the requested base
petal count heads no entry of the fixed table, and for every table entry
it returns that entry, whose first component equals the request. -/
theorem C2_resolver :
    (∀ b : Nat, find_layer_set b = none ↔
        b ∉ FIBONACCI_LAYER_SETS.map (fun layer_set => layer_set.1))
    ∧ (∀ ls ∈ FIBONACCI_LAYER_SETS, find_layer_set ls.1 = some ls) := by
  constructor
  · intro b
    rw [find_layer_set, List.find?_eq_none]
    simp only [beq_iff_eq, List.mem_map, not_exists, not_and]
  · decide

/-- Claim C2, witness: 4 is unsupported and raises; 21 resolves to
(21, 13, 8). -/
theorem C2_resolver_witness :
    find_layer_set 4 = none ∧ find_layer_set 21 = some (21, 13, 8) :=
  ⟨(C2_resolver.1 4).mpr (by decide), C2_resolver.2 (21, 13, 8) (by decide)⟩

/-- Claim C3 — for every petal count n ≥ 1 both ring arrangers return
exactly n instances; the i-th instance has angle i·(360/n) degrees and is
moved to x = petal_edge·cos(radians(angle)), z = petal_edge·sin(radians(angle)),
y = 0; the creation order is ascending-angle order starting from angle 0. -/
theorem C3_ring_arrangement (ft : FlowerType) (tpl : Nat) (s : V3) (layer : Layer)
    (n : Nat) (nid : Nat) (hn : 1 ≤ n) :
    (bf_arranged ft tpl s (n : Int) nid).length = n
    ∧ (ff_arranged ft layer tpl s (n : Int) nid).length = n
    ∧ (∀ i, i < n →
        ((bf_arranged ft tpl s (n : Int) nid).getD i noInst).handle = nid + i
        ∧ ((bf_arranged ft tpl s (n : Int) nid).getD i noInst).angle
            = (i : ℚ) * (360 / (n : ℚ))
        ∧ ((bf_arranged ft tpl s (n : Int) nid).getD i noInst).px
            = (ft.petal_edge : ℝ)
                * Real.cos (radians ((((i : ℚ) * (360 / (n : ℚ))) : ℚ) : ℝ))
        ∧ ((bf_arranged ft tpl s (n : Int) nid).getD i noInst).py = 0
        ∧ ((bf_arranged ft tpl s (n : Int) nid).getD i noInst).pz
            = (ft.petal_edge : ℝ)
                * Real.sin (radians ((((i : ℚ) * (360 / (n : ℚ))) : ℚ) : ℝ))
        ∧ ((ff_arranged ft layer tpl s (n : Int) nid).getD i noInst).handle = nid + i
        ∧ ((ff_arranged ft layer tpl s (n : Int) nid).getD i noInst).angle
            = (i : ℚ) * (360 / (n : ℚ))
        ∧ ((ff_arranged ft layer tpl s (n : Int) nid).getD i noInst).px
            = (ft.petal_edge : ℝ)
                * Real.cos (radians ((((i : ℚ) * (360 / (n : ℚ))) : ℚ) : ℝ))
        ∧ ((ff_arranged ft layer tpl s (n : Int) nid).getD i noInst).py = 0
        ∧ ((ff_arranged ft layer tpl s (n : Int) nid).getD i noInst).pz
            = (ft.petal_edge : ℝ)
                * Real.sin (radians ((((i : ℚ) * (360 / (n : ℚ))) : ℚ) : ℝ)))
    ∧ (∀ i j, i < j → j < n →
        ((bf_arranged ft tpl s (n : Int) nid).getD i noInst).angle
          < ((bf_arranged ft tpl s (n : Int) nid).getD j noInst).angle) := by
  have hz : n ≠ 0 := by omega
  have hbf := bf_arrange_petals_ok ft tpl s n nid hz
  have hff := ff_arrange_petals_ok ft layer tpl s n nid hz
  constructor
  · simp [bf_arranged, petalsOf, hbf]
  constructor
  · simp [ff_arranged, petalsOf, hff]
  constructor
  · intro i hi
    have hb : (bf_arranged ft tpl s (n : Int) nid).getD i noInst
        = bf_inst ft s (360 / (n : ℚ)) nid i := by
      rw [bf_arranged, hbf]
      simp only [petalsOf]
      exact getD_range_map _ n i hi noInst
    have hf : (ff_arranged ft layer tpl s (n : Int) nid).getD i noInst
        = ff_inst ft layer s (360 / (n : ℚ)) nid i := by
      rw [ff_arranged, hff]
      simp only [petalsOf]
      exact getD_range_map _ n i hi noInst
    rw [hb, hf]
    exact ⟨rfl, rfl, rfl, rfl, rfl, rfl, rfl, rfl, rfl, rfl⟩
  · intro i j hij hj
    have hb : ∀ k, k < n → (bf_arranged ft tpl s (n : Int) nid).getD k noInst
        = bf_inst ft s (360 / (n : ℚ)) nid k := by
      intro k hk
      rw [bf_arranged, hbf]
      simp only [petalsOf]
      exact getD_range_map _ n k hk noInst
    rw [hb i (by omega), hb j hj]
    simp only [bf_inst]
    have hpos : (0 : ℚ) < 360 / (n : ℚ) := by
      apply div_pos (by norm_num)
      exact_mod_cast Nat.pos_of_ne_zero hz
    have : ((i : ℚ)) < ((j : ℚ)) := by exact_mod_cast hij
    exact mul_lt_mul_of_pos_right this hpos

/-- Claim C3, witness at n = 3: three instances, the second at angle
1·(360/3) and at the cosine position, with angles ascending. -/
theorem C3_ring_arrangement_witness :
    (bf_arranged SUNFLOWER_BF 5 (1, 1, 1) 3 10).length = 3
    ∧ ((bf_arranged SUNFLOWER_BF 5 (1, 1, 1) 3 10).getD 1 noInst).angle
        = (1 : ℚ) * (360 / (3 : ℚ))
    ∧ ((bf_arranged SUNFLOWER_BF 5 (1, 1, 1) 3 10).getD 1 noInst).px
        = (SUNFLOWER_BF.petal_edge : ℝ)
            * Real.cos (radians ((((1 : ℚ) * (360 / (3 : ℚ))) : ℚ) : ℝ))
    ∧ ((bf_arranged SUNFLOWER_BF 5 (1, 1, 1) 3 10).getD 0 noInst).angle
        < ((bf_arranged SUNFLOWER_BF 5 (1, 1, 1) 3 10).getD 1 noInst).angle := by
  have h := C3_ring_arrangement SUNFLOWER_BF 5 (1, 1, 1) Layer.base 3 10 (by decide)
  obtain ⟨h1, h2, h3, h4⟩ := h
  have hi := h3 1 (by decide)
  refine ⟨h1, ?_, ?_, h4 0 1 (by decide) (by decide)⟩
  · simpa using hi.2.1
  · simpa using hi.2.2.1

/-- Claim C4, counterexample to the claim as stated: the class-based ring
arranger called with petal count −3 returns normally with an empty list
(no exception of any kind), and called with 0 it fails with the division
error of `360.0 / petal_count`, not an input-validation error; likewise
for the `flowerforge.py` arranger. -/
theorem C4_counterexample :
    isOkB (bf_arrange_petals SUNFLOWER_BF 5 (1, 1, 1) (-3) 10) = true
    ∧ petalsOf (bf_arrange_petals SUNFLOWER_BF 5 (1, 1, 1) (-3) 10) = []
    ∧ bf_arrange_petals SUNFLOWER_BF 5 (1, 1, 1) 0 10 = .error PyErr.zeroDivision
    ∧ isOkB (ff_arrange_petals SUNFLOWER_FF Layer.base 5 (1, 1, 1) (-3) 10) = true
    ∧ ff_arrange_petals SUNFLOWER_FF Layer.base 5 (1, 1, 1) 0 10
        = .error PyErr.zeroDivision :=
  ⟨rfl, rfl, rfl, rfl, rfl⟩

/-- Claim C4 (amended) — only `genflower.py` `create_flower` validates its
petal count, raising `ValueError` for every count ≤ 0 before creating any
geometry; the ring arrangers of `bustersflowers.py` and `flowerforge.py`
do not validate: count 0 raises `ZeroDivisionError` from computing
`360.0 / petal_count`, and a negative count silently returns an empty
list. -/
theorem C4_validation_only_genflower :
    (∀ (petal_count : Int) (nid : Nat), petal_count ≤ 0 →
        gf_create_flower petal_count nid
          = .error (.valueError "petal_count must be greater than zero"))
    ∧ (∀ (ft : FlowerType) (tpl : Nat) (s : V3) (nid : Nat),
        bf_arrange_petals ft tpl s 0 nid = .error .zeroDivision
        ∧ ∀ layer, ff_arrange_petals ft layer tpl s 0 nid = .error .zeroDivision)
    ∧ (∀ (ft : FlowerType) (tpl : Nat) (s : V3) (nid : Nat) (petal_count : Int)
        (layer : Layer), petal_count < 0 →
        isOkB (bf_arrange_petals ft tpl s petal_count nid) = true
        ∧ petalsOf (bf_arrange_petals ft tpl s petal_count nid) = []
        ∧ isOkB (ff_arrange_petals ft layer tpl s petal_count nid) = true
        ∧ petalsOf (ff_arrange_petals ft layer tpl s petal_count nid) = []) := by
  refine ⟨?_, ?_, ?_⟩
  · intro pc nid h
    rw [gf_create_flower, if_pos h]
  · intro ft tpl s nid
    constructor
    · rw [bf_arrange_petals, if_pos rfl]
    · intro layer
      rw [ff_arrange_petals, if_pos rfl]
  · intro ft tpl s nid pc layer h
    have hne : pc ≠ 0 := by omega
    have ht : pc.toNat = 0 := Int.toNat_of_nonpos (by omega)
    refine ⟨?_, ?_, ?_, ?_⟩ <;>
      simp [bf_arrange_petals, ff_arrange_petals, if_neg hne, isOkB, petalsOf, ht]

/-- Claim C4, witness: `genflower.py` rejects −5 with the `ValueError`,
while the arrangers accept −2 and return no petals. -/
theorem C4_validation_only_genflower_witness :
    gf_create_flower (-5) 0 = .error (.valueError "petal_count must be greater than zero")
    ∧ isOkB (bf_arrange_petals SUNFLOWER_BF 7 (1, 1, 1) (-2) 20) = true
    ∧ petalsOf (ff_arrange_petals SUNFLOWER_FF Layer.mid 7 (1, 1, 1) (-2) 20) = [] := by
  refine ⟨?_, ?_, ?_⟩
  · exact C4_validation_only_genflower.1 (-5) 0 (by decide)
  · exact (C4_validation_only_genflower.2.2 SUNFLOWER_BF 7 (1, 1, 1) 20 (-2) Layer.mid
      (by decide)).1
  · exact (C4_validation_only_genflower.2.2 SUNFLOWER_FF 7 (1, 1, 1) 20 (-2) Layer.mid
      (by decide)).2.2.2

/-- Claim C5 (amended) — both disk builders create exactly one cylinder
whose radial subdivision count `sx` equals the requested petal count; the
class-based builder then moves it to y = height + 0.08, whereas the
`flowerforge.py` builder issues no move and leaves the disk at the
origin. At petal count 21 the class-based disk has 21 radial segments and
sits at y = height + 0.08. -/
theorem C5_disk_builder :
    (∀ (ft : FlowerType) (pc nid : Nat),
        (bf_create_disk ft pc nid).1.sx = pc
        ∧ (bf_create_disk ft pc nid).1.posY = ft.height + 0.08
        ∧ ((bf_create_disk ft pc nid).2.1.countP MOp.isCylinder) = 1)
    ∧ (∀ (ft : FlowerType) (pc nid : Nat),
        (ff_create_disk ft pc nid).1.sx = pc
        ∧ (ff_create_disk ft pc nid).1.posY = 0
        ∧ ((ff_create_disk ft pc nid).2.1.countP MOp.isCylinder) = 1)
    ∧ (bf_create_disk SUNFLOWER_BF 21 0).1.sx = 21
    ∧ (bf_create_disk SUNFLOWER_BF 21 0).1.posY = SUNFLOWER_BF.height + 0.08 := by
  refine ⟨?_, ?_, rfl, rfl⟩ <;> (intro ft pc nid; exact ⟨rfl, rfl, rfl⟩)

/-- Claim C5, counterexample to the claim as stated: the `flowerforge.py`
disk builder leaves the disk at y = 0, which differs from
height + 0.08, and its op trace is the bare cylinder call with no move. -/
theorem C5_counterexample :
    (ff_create_disk SUNFLOWER_FF 21 0).1.posY = 0
    ∧ (ff_create_disk SUNFLOWER_FF 21 0).1.posY ≠ SUNFLOWER_FF.height + 0.08
    ∧ (ff_create_disk SUNFLOWER_FF 21 0).2.1
        = [MOp.cylinder SUNFLOWER_FF.radius SUNFLOWER_FF.height 21 1 1 0] := by
  refine ⟨rfl, ?_, rfl⟩
  norm_num [ff_create_disk, SUNFLOWER_FF]

/-- Claim C6 (amended) — the class-based sculptor splits the full vertex
index range [0, vertexCount) into the two contiguous halves
[0, vertexCount/2) and [vertexCount/2, vertexCount) and displaces the
vertex at position i of each half by the cyclic table entry
`offsetTable[i mod len(offsetTable)]` (z-mirrored on the right half); the
`flowerforge.py` sculptor instead displaces only the fixed index ranges
12–17 and 21–26, indexing the table by `vertex − first` with no modulus
and no vertex-count computation. -/
theorem C6_sculptor_halves :
    (∀ nv : Nat,
        (bf_move_vertices nv).map Prod.fst = List.range nv
        ∧ (bf_get_vertex_ranges nv).1 = List.range' 0 (nv / 2)
        ∧ (bf_get_vertex_ranges nv).2 = List.range' (nv / 2) (nv - nv / 2)
        ∧ (∀ i, i < nv / 2 →
            (bf_move_vertices nv).getD i (0, noV3) = (i, tblAt i))
        ∧ (∀ i, i < nv - nv / 2 →
            (bf_move_vertices nv).getD (nv / 2 + i) (0, noV3)
              = (nv / 2 + i, negZ (tblAt i))))
    ∧ ff_create_petal_moves.map Prod.fst
        = [12, 13, 14, 15, 16, 17] ++ [21, 22, 23, 24, 25, 26]
    ∧ (∀ k, k < 6 →
        (ff_move_vertices .L 12 17).getD k (0, noV3)
          = (12 + k, PETAL_VERTEX_MOVES.getD k noV3)
        ∧ (ff_move_vertices .R 21 26).getD k (0, noV3)
          = (21 + k, negZ (PETAL_VERTEX_MOVES.getD k noV3))) := by
  refine ⟨?_, by decide, ?_⟩
  · intro nv
    have hlen1 : (bf_get_vertex_ranges nv).1.length = nv / 2 := by
      simp [bf_get_vertex_ranges]
    have hlen2 : (bf_get_vertex_ranges nv).2.length = nv - nv / 2 := by
      simp [bf_get_vertex_ranges]
    have hmv : bf_move_vertices nv
        = bf_side_moves 0 (nv / 2) false
            ++ bf_side_moves (nv / 2) (nv - nv / 2) true := by
      rw [bf_move_vertices, hlen1, hlen2]
    refine ⟨?_, rfl, rfl, ?_, ?_⟩
    · rw [hmv, List.map_append, bf_side_moves_fst, bf_side_moves_fst,
        List.range_eq_range']
      have := List.range'_append 0 (nv / 2) (nv - nv / 2) 1
      simp only [one_mul, zero_add] at this
      rw [this]
      congr 1
      omega
    · intro i hi
      exact bf_move_vertices_getD_left nv i hi
    · intro i hi
      exact bf_move_vertices_getD_right nv i hi
  · intro k hk
    interval_cases k <;> exact ⟨rfl, rfl⟩

/-- Claim C6, counterexample to the claim as stated: the vertices the
`flowerforge.py` sculptor displaces are exactly 12–17 and 21–26; vertex 0
— which lies at position 0 of the left half of any vertex range
[0, vertexCount) with vertexCount ≥ 2 — is not displaced at all, and
neither is vertex 18. -/
theorem C6_counterexample :
    ff_create_petal_moves.map Prod.fst
        = [12, 13, 14, 15, 16, 17, 21, 22, 23, 24, 25, 26]
    ∧ 0 ∉ ff_create_petal_moves.map Prod.fst
    ∧ 18 ∉ ff_create_petal_moves.map Prod.fst := by decide

/-- Claim C6, witness at vertexCount 36 (the count of the 8×1 subdivided
box): the moved vertices are exactly 0–35, position 6 of the left half
wraps around to table entry 0, and position 2 of the right half gets the
mirrored table entry 2. -/
theorem C6_sculptor_halves_witness :
    (bf_move_vertices 36).map Prod.fst = List.range 36
    ∧ (bf_move_vertices 36).getD 6 (0, noV3) = (6, tblAt 6)
    ∧ tblAt 6 = PETAL_VERTEX_MOVES.getD 0 noV3
    ∧ (bf_move_vertices 36).getD (36 / 2 + 2) (0, noV3) = (36 / 2 + 2, negZ (tblAt 2))
    ∧ (ff_move_vertices .L 12 17).getD 0 (0, noV3)
        = (12 + 0, PETAL_VERTEX_MOVES.getD 0 noV3) := by
  have h := C6_sculptor_halves
  exact ⟨(h.1 36).1, (h.1 36).2.2.2.1 6 (by decide), rfl,
    (h.1 36).2.2.2.2 2 (by decide), (h.2.2 0 (by decide)).1⟩

/-- Claim C7 — petal sculpting is mirror-symmetric in every
implementation: the displacement at matching left/right positions keeps x
and y and negates z (`negZ`), for the class-based halves, for the
`flowerforge.py` fixed ranges, and for the twelve literal moves of
`genflower.py`. -/
theorem C7_mirror_symmetry :
    (∀ nv i, i < nv / 2 →
        ((bf_move_vertices nv).getD (nv / 2 + i) (0, noV3)).2
          = negZ (((bf_move_vertices nv).getD i (0, noV3)).2))
    ∧ (∀ k, k < 6 →
        ((ff_move_vertices .R 21 26).getD k (0, noV3)).2
          = negZ (((ff_move_vertices .L 12 17).getD k (0, noV3)).2))
    ∧ (∀ p ∈ gf_mirror_pairs, gf_disp p.2 = (gf_disp p.1).map negZ) := by
  refine ⟨?_, ?_, ?_⟩
  · intro nv i hi
    have hi2 : i < nv - nv / 2 := by omega
    rw [bf_move_vertices_getD_right nv i hi2, bf_move_vertices_getD_left nv i hi]
  · intro k hk
    interval_cases k <;> rfl
  · intro p hp
    fin_cases hp <;> rfl

/-- Claim C7, witness: matching pair 1 of the class-based halves at
vertexCount 36, matching pair 2 of the `flowerforge.py` ranges, and the
outermost `genflower.py` pair (17, 26). -/
theorem C7_mirror_symmetry_witness :
    ((bf_move_vertices 36).getD (36 / 2 + 1) (0, noV3)).2
        = negZ (((bf_move_vertices 36).getD 1 (0, noV3)).2)
    ∧ ((ff_move_vertices .R 21 26).getD 2 (0, noV3)).2
        = negZ (((ff_move_vertices .L 12 17).getD 2 (0, noV3)).2)
    ∧ gf_disp 26 = (gf_disp 17).map negZ :=
  ⟨C7_mirror_symmetry.1 36 1 (by decide),
   C7_mirror_symmetry.2.1 2 (by decide),
   C7_mirror_symmetry.2.2 (17, 26) (by decide)⟩

/-- Claim C8 (amended) — the petal template is built identically sized
regardless of layer in both implementations, and the class-based arranger
issues no scale call, so all of its instances keep the template's scale;
but in `flowerforge.py` the `transform_petal` hook IS applied to the
template during arrangement of the mid and inner layers: the first
duplicate keeps the template's scale while every later duplicate carries
scale (0.7, 0.5, 0.8), so instances within (and across) those layers are
not all the same size. -/
theorem C8_layer_transform_hooks :
    (∀ (ft : FlowerType) (nv nid : Nat) (l l' : Layer),
        bf_create_petal ft l nv nid = bf_create_petal ft l' nv nid)
    ∧ (∀ (ft : FlowerType) (nid : Nat) (l l' : Layer),
        ff_create_petal ft l nid = ff_create_petal ft l' nid)
    ∧ (∀ (ft : FlowerType) (tpl : Nat) (s : V3) (pc : Int) (nid : Nat),
        (opsOf (bf_arrange_petals ft tpl s pc nid)).countP MOp.isScaleOp = 0
        ∧ ∀ p ∈ bf_arranged ft tpl s pc nid, p.scale = s)
    ∧ (∀ (ft : FlowerType) (tpl : Nat) (s : V3) (pc : Int) (nid : Nat),
        ∀ p ∈ ff_arranged ft Layer.base tpl s pc nid, p.scale = s)
    ∧ (∀ (ft : FlowerType) (tpl : Nat) (s : V3) (n : Nat) (nid : Nat) (layer : Layer),
        layer ≠ Layer.base → 1 ≤ n →
        MOp.scaleObj 0.7 0.5 0.8 tpl
            ∈ opsOf (ff_arrange_petals ft layer tpl s (n : Int) nid)
        ∧ ((ff_arranged ft layer tpl s (n : Int) nid).getD 0 noInst).scale = s
        ∧ ∀ i, 0 < i → i < n →
            ((ff_arranged ft layer tpl s (n : Int) nid).getD i noInst).scale
              = transform_petal_scale) := by
  refine ⟨fun ft nv nid l l' => rfl, fun ft nid l l' => rfl, ?_, ?_, ?_⟩
  · intro ft tpl s pc nid
    rcases eq_or_ne pc 0 with h | h
    · subst h
      constructor
      · simp [bf_arrange_petals, opsOf]
      · intro p hp
        simp [bf_arranged, bf_arrange_petals, petalsOf] at hp
    · constructor
      · simp only [bf_arrange_petals, if_neg h, opsOf]
        rw [List.countP_eq_zero]
        intro a ha
        simp only [List.mem_append, List.mem_flatten, List.mem_map] at ha
        rcases ha with ⟨t, ⟨⟨q, _hq, ht⟩, hat⟩⟩ | ha
        · subst ht
          simp only [bf_inst_ops, List.mem_cons, List.not_mem_nil, or_false] at hat
          rcases hat with h1 | h1 | h1 <;> subst h1 <;> simp [MOp.isScaleOp]
        · simp only [List.mem_cons, List.not_mem_nil, or_false] at ha
          rcases ha with h1 | h1 <;> subst h1 <;> simp [MOp.isScaleOp]
      · intro p hp
        simp only [bf_arranged, bf_arrange_petals, if_neg h, petalsOf,
          List.mem_map] at hp
        obtain ⟨i, _hi, hp⟩ := hp
        rw [← hp]
        rfl
  · intro ft tpl s pc nid p hp
    rcases eq_or_ne pc 0 with h | h
    · subst h
      simp [ff_arranged, ff_arrange_petals, petalsOf] at hp
    · simp only [ff_arranged, ff_arrange_petals, if_neg h, petalsOf,
        List.mem_map] at hp
      obtain ⟨i, _hi, hp⟩ := hp
      rw [← hp]
      simp only [ff_inst]
      exact ff_tpl_scale_base s i
  · intro ft tpl s n nid layer hL hn
    have hff := ff_arrange_petals_ok ft layer tpl s n nid (by omega)
    refine ⟨?_, ?_, ?_⟩
    · rw [opsOf.eq_def, hff]
      simp only [List.mem_append, List.mem_flatten, List.mem_map]
      left
      refine ⟨ff_inst_ops layer tpl (ff_inst ft layer s (360 / (n : ℚ)) nid 0),
        ⟨ff_inst ft layer s (360 / (n : ℚ)) nid 0, ⟨0, by simpa using hn, rfl⟩, rfl⟩, ?_⟩
      cases layer with
      | base => exact absurd rfl hL
      | mid => simp [ff_inst_ops]
      | inner => simp [ff_inst_ops]
    · rw [ff_arranged, petalsOf.eq_def, hff]
      simp only
      rw [getD_range_map _ _ _ (by omega : 0 < n)]
      rfl
    · intro i h0 hi
      rw [ff_arranged, petalsOf.eq_def, hff]
      simp only
      rw [getD_range_map _ _ _ hi]
      simp only [ff_inst]
      exact ff_tpl_scale_rescaled layer s hL i h0

/-- Claim C8, counterexample to the claim as stated: arranging a
mid-layer ring of 2 petals in `flowerforge.py` from a template at scale
(1, 1, 1) produces instances at scales (1, 1, 1) and (0.7, 0.5, 0.8) —
the scale hook ran (two scale calls appear in the trace) and the
instances are not identically sized. -/
theorem C8_counterexample :
    (ff_arranged SUNFLOWER_FF Layer.mid 5 (1, 1, 1) 2 10).map (fun p => p.scale)
        = [(1, 1, 1), (0.7, 0.5, 0.8)]
    ∧ ((1, 1, 1) : V3) ≠ ((0.7, 0.5, 0.8) : V3)
    ∧ (opsOf (ff_arrange_petals SUNFLOWER_FF Layer.mid 5 (1, 1, 1) 2 10)).countP
        MOp.isScaleOp = 2 := by
  refine ⟨?_, ?_, rfl⟩
  · norm_num [ff_arranged, ff_arrange_petals, petalsOf, ff_inst, ff_tpl_scale,
      transform_petal_scale, List.range_succ, Prod.ext_iff,
      show Int.toNat 2 = 2 from rfl]
  · norm_num [Prod.ext_iff]

/-- Claim C8, witness: no scale call in a class-based arrangement; in a
`flowerforge.py` mid-layer arrangement of 2 the scale call on the
template appears and the two instances carry scales (1, 1, 1) and
(0.7, 0.5, 0.8). -/
theorem C8_layer_transform_hooks_witness :
    (opsOf (bf_arrange_petals SUNFLOWER_BF 5 (1, 1, 1) 3 10)).countP MOp.isScaleOp = 0
    ∧ MOp.scaleObj 0.7 0.5 0.8 5
        ∈ opsOf (ff_arrange_petals SUNFLOWER_FF Layer.mid 5 (1, 1, 1) 2 10)
    ∧ ((ff_arranged SUNFLOWER_FF Layer.mid 5 (1, 1, 1) 2 10).getD 0 noInst).scale
        = (1, 1, 1)
    ∧ ((ff_arranged SUNFLOWER_FF Layer.mid 5 (1, 1, 1) 2 10).getD 1 noInst).scale
        = transform_petal_scale := by
  have h5 := C8_layer_transform_hooks.2.2.2.2 SUNFLOWER_FF 5 (1, 1, 1) 2 10 Layer.mid
    (by decide) (by decide)
  exact ⟨(C8_layer_transform_hooks.2.2.1 SUNFLOWER_BF 5 (1, 1, 1) 3 10).1,
    h5.1, h5.2.1, h5.2.2 1 (by decide) (by decide)⟩

/-- Claim C9 (amended) — after creating all duplicates, the arrangers of
`bustersflowers.py` and `flowerforge.py` end their traces with exactly
`cmds.delete(template)` followed by `cmds.select(clear=True)`, and the
template handle never appears in the returned handle list; the
`genflower.py` arrangement also deletes the template (its final
operation) and also never returns it, but issues no selection-clear
after the duplication loop. -/
theorem C9_arranger_epilogue :
    (∀ (ft : FlowerType) (tpl : Nat) (s : V3) (pc : Int) (nid : Nat), pc ≠ 0 →
        (∃ pre, opsOf (bf_arrange_petals ft tpl s pc nid)
            = pre ++ [MOp.deleteObj tpl, MOp.selectClear])
        ∧ (tpl < nid →
            tpl ∉ (bf_arranged ft tpl s pc nid).map (fun p => p.handle)))
    ∧ (∀ (ft : FlowerType) (layer : Layer) (tpl : Nat) (s : V3) (pc : Int) (nid : Nat),
        pc ≠ 0 →
        (∃ pre, opsOf (ff_arrange_petals ft layer tpl s pc nid)
            = pre ++ [MOp.deleteObj tpl, MOp.selectClear])
        ∧ (tpl < nid →
            tpl ∉ (ff_arranged ft layer tpl s pc nid).map (fun p => p.handle)))
    ∧ (∀ (pc : Int) (nid : Nat), 0 < pc →
        (gfOps (gf_create_flower pc nid)).getLast? = some (MOp.deleteObj (nid + 1))
        ∧ (nid + 1) ∉ (gfPetals (gf_create_flower pc nid)).map (fun p => p.handle)) := by
  refine ⟨?_, ?_, ?_⟩
  · intro ft tpl s pc nid h
    constructor
    · exact ⟨_, by simp only [bf_arrange_petals, if_neg h, opsOf]; rfl⟩
    · intro htpl hmem
      simp only [bf_arranged, bf_arrange_petals, if_neg h, petalsOf,
        List.map_map, List.mem_map] at hmem
      obtain ⟨i, _hi, hi2⟩ := hmem
      simp only [Function.comp, bf_inst] at hi2
      omega
  · intro ft layer tpl s pc nid h
    constructor
    · exact ⟨_, by simp only [ff_arrange_petals, if_neg h, opsOf]; rfl⟩
    · intro htpl hmem
      simp only [ff_arranged, ff_arrange_petals, if_neg h, petalsOf,
        List.map_map, List.mem_map] at hmem
      obtain ⟨i, _hi, hi2⟩ := hmem
      simp only [Function.comp, ff_inst] at hi2
      omega
  · intro pc nid h
    have hng : ¬ pc ≤ 0 := by omega
    constructor
    · simp only [gf_create_flower, if_neg hng, gfOps]
      rw [show ([MOp.cylinder 1 0.1 pc.toNat 1 1 nid, MOp.cube 0.8 0.1 0.2 8 1 (nid + 1)]
            ++ gf_vertex_moves.map
                (fun m => MOp.moveVtx m.2.1 m.2.2.1 m.2.2.2 (nid + 1) m.1)
            ++ [MOp.selectClear]
            ++ (((List.range pc.toNat).map (gf_inst (360 / (pc : ℚ)) (nid + 2))).map
                  (gf_inst_ops (nid + 1))).flatten
            ++ [MOp.deleteObj (nid + 1)])
          = ([MOp.cylinder 1 0.1 pc.toNat 1 1 nid, MOp.cube 0.8 0.1 0.2 8 1 (nid + 1)]
            ++ gf_vertex_moves.map
                (fun m => MOp.moveVtx m.2.1 m.2.2.1 m.2.2.2 (nid + 1) m.1)
            ++ [MOp.selectClear]
            ++ (((List.range pc.toNat).map (gf_inst (360 / (pc : ℚ)) (nid + 2))).map
                  (gf_inst_ops (nid + 1))).flatten)
            ++ [MOp.deleteObj (nid + 1)] by simp [List.append_assoc]]
      exact List.getLast?_concat _
    · intro hmem
      simp only [gf_create_flower, if_neg hng, gfPetals, List.map_map,
        List.mem_map] at hmem
      obtain ⟨i, _hi, hi2⟩ := hmem
      simp only [Function.comp, gf_inst] at hi2
      omega

/-- Claim C9, counterexample to the claim as stated: the last operation
of a `genflower.py` run with 3 petals is the template delete — not a
selection-clear — and no selection-clear occurs anywhere after the last
duplicate is created. -/
theorem C9_counterexample :
    (gfOps (gf_create_flower 3 0)).getLast? = some (MOp.deleteObj 1)
    ∧ MOp.isSelectClear (MOp.deleteObj 1) = false
    ∧ ((gfOps (gf_create_flower 3 0)).reverse.takeWhile
          (fun op => !op.isDuplicate)).any MOp.isSelectClear = false :=
  ⟨rfl, rfl, by decide⟩

/-- Claim C9, witness: a class-based arrangement of 2 petals ends with
delete-then-clear and never returns template handle 5; a `genflower.py`
run with 3 petals ends on the delete of template handle 1, which is not
among the returned handles. -/
theorem C9_arranger_epilogue_witness :
    (∃ pre, opsOf (bf_arrange_petals SUNFLOWER_BF 5 (1, 1, 1) 2 10)
        = pre ++ [MOp.deleteObj 5, MOp.selectClear])
    ∧ 5 ∉ (bf_arranged SUNFLOWER_BF 5 (1, 1, 1) 2 10).map (fun p => p.handle)
    ∧ (gfOps (gf_create_flower 3 0)).getLast? = some (MOp.deleteObj 1)
    ∧ 1 ∉ (gfPetals (gf_create_flower 3 0)).map (fun p => p.handle) := by
  have hbf := C9_arranger_epilogue.1 SUNFLOWER_BF 5 (1, 1, 1) 2 10 (by decide)
  have hgf := C9_arranger_epilogue.2.2 3 0 (by decide)
  exact ⟨hbf.1, hbf.2 (by decide), hgf.1, hgf.2⟩

/-- Claim C10 — the class-based `all_petals` field is append-only and
never reset: the object returned by a first `create_flower` call stores
exactly the returned list, and a second call on that object returns a
list having the first call's list as a prefix, extended by one fresh
layer-set's worth of new handles. -/
theorem C10_all_petals_append_only (ft : FlowerType) (b nv nv2 nid nid2 : Nat)
    (ls : Nat × Nat × Nat) (hfind : find_layer_set b = some ls) :
    (cfFlower (bf_create_flower ⟨ft, b, []⟩ nv nid)).all_petals
        = cfPetals (bf_create_flower ⟨ft, b, []⟩ nv nid)
    ∧ cfPetals (bf_create_flower ⟨ft, b, []⟩ nv nid)
        <+: cfPetals (bf_create_flower
              (cfFlower (bf_create_flower ⟨ft, b, []⟩ nv nid)) nv2 nid2)
    ∧ (cfPetals (bf_create_flower
          (cfFlower (bf_create_flower ⟨ft, b, []⟩ nv nid)) nv2 nid2)).length
        = (cfPetals (bf_create_flower ⟨ft, b, []⟩ nv nid)).length
            + (ls.1 + ls.2.1 + ls.2.2) := by
  obtain ⟨p1, p2, p3⟩ := layer_sets_pos ls (List.mem_of_find?_eq_some hfind)
  obtain ⟨X, nidEnd, hlen, heq⟩ := bf_create_flower_shape ft b nv nid [] ls hfind p1 p2 p3
  obtain ⟨X2, nidEnd2, hlen2, heq2⟩ :=
    bf_create_flower_shape ft b nv2 nid2 ([] ++ X) ls hfind p1 p2 p3
  rw [heq]
  simp only [cfFlower, cfPetals]
  rw [heq2]
  simp only [cfPetals, List.nil_append]
  refine ⟨trivial, List.prefix_append X X2, ?_⟩
  simp [hlen2]

/-- Claim C10, witness: two successive `create_flower` calls on one
`Flower` with base count 21 — the second returned list keeps the first as
a prefix and grows by 21 + 13 + 8 handles. -/
theorem C10_all_petals_append_only_witness :
    (cfFlower (bf_create_flower ⟨SUNFLOWER_BF, 21, []⟩ 36 0)).all_petals
        = cfPetals (bf_create_flower ⟨SUNFLOWER_BF, 21, []⟩ 36 0)
    ∧ cfPetals (bf_create_flower ⟨SUNFLOWER_BF, 21, []⟩ 36 0)
        <+: cfPetals (bf_create_flower
              (cfFlower (bf_create_flower ⟨SUNFLOWER_BF, 21, []⟩ 36 0)) 36 100)
    ∧ (cfPetals (bf_create_flower
          (cfFlower (bf_create_flower ⟨SUNFLOWER_BF, 21, []⟩ 36 0)) 36 100)).length
        = (cfPetals (bf_create_flower ⟨SUNFLOWER_BF, 21, []⟩ 36 0)).length
            + (21 + 13 + 8) :=
  C10_all_petals_append_only SUNFLOWER_BF 21 36 36 0 100 (21, 13, 8) (by decide)
